import Mathlib

/-!
Shallow embedding of ucl_tracker_fd.py, a single-file reverse proxy for a
football statistics API together with the client-side requirement
evaluation, fixture lookup and match normalization logic contained in the
HTML page the server serves. All definitions are translated from the
source file; machine strings are modelled as Lean strings and the JS and
Python routines are rendered as pure functions on them. Theorems at the
end of the file settle the specification claims.
-/

set_option maxRecDepth 8000

/-! ## Basic character and string helpers -/

/-- Left brace character, written via its code point. -/
def lbraceChar : Char := Char.ofNat 123

/-- Right brace character, written via its code point. -/
def rbraceChar : Char := Char.ofNat 125

/-- Single quote character, written via its code point. -/
def squoteChar : Char := Char.ofNat 39

/-- Test whether the first list occurs at the head of the second list. -/
def startsWithChars : List Char → List Char → Bool
  | [], _ => true
  | _ :: _, [] => false
  | c :: cs, d :: ds => c == d && startsWithChars cs ds

/-- Test whether sub occurs contiguously anywhere inside the second list. -/
def hasSubChars (sub : List Char) : List Char → Bool
  | [] => startsWithChars sub []
  | d :: ds => startsWithChars sub (d :: ds) || hasSubChars sub ds

/-- Model of the JS expression hay.includes(sub) on strings. -/
def jsIncludes (hay sub : String) : Bool := hasSubChars sub.data hay.data

/-- Model of the JS expression s.toLowerCase() for the ASCII strings used
by the page. -/
def lowerStr (s : String) : String := String.mk (s.data.map Char.toLower)

/-- Decimal digit character for a value below ten. -/
def digitChar (n : Nat) : Char := Char.ofNat (48 + n)

/-- Decimal digits of a natural number, with explicit fuel so the
definition is structural. The fuel argument is always instantiated with a
bound at least the number itself plus one. -/
def natChars : Nat → Nat → List Char
  | 0, _ => []
  | fuel + 1, n => if n < 10 then [digitChar n] else natChars fuel (n / 10) ++ [digitChar (n % 10)]

/-- Model of the JS expression String(i) for an integer i. -/
def intStr (i : Int) : String :=
  match i with
  | Int.ofNat n => String.mk (natChars (n + 1) n)
  | Int.negSucc n => String.mk ('-' :: natChars (n + 2) (n + 1))

/-! ## Client data model

The internal match shape produced by normalizeFdMatches in the page
script: status, team names, numeric scores and an optional minute. The
defensive null guards in the JS (for example m.homeTeam or an empty
string) are identities on this model because normalizeFdMatches always
fills every field. -/

structure Match where
  status : String
  homeTeam : String
  awayTeam : String
  homeScore : Int
  awayScore : Int
  minute : Option Int
deriving DecidableEq

/-- Result record returned by the requirement check functions: a status
string (fulfilled, failed or pending), a score display string and a match
time display string. -/
structure ReqResult where
  status : String
  score : String
  time : String
deriving DecidableEq

/-- Model of the page function formatScore. -/
def formatScore (m : Match) : String :=
  intStr m.homeScore ++ "-" ++ intStr m.awayScore

/-- Model of the page function teamWon: the side whose lowercased name
contains the lowercased query name is compared by score; the home side is
consulted first. -/
def teamWon (m : Match) (teamName : String) : Bool :=
  let home := lowerStr m.homeTeam
  let away := lowerStr m.awayTeam
  let t := lowerStr teamName
  if jsIncludes home t then m.homeScore > m.awayScore
  else if jsIncludes away t then m.awayScore > m.homeScore
  else false

/-- Model of the page function findMatch: the first match whose lowercased
team names contain the two lowercased query names, in either orientation. -/
def findMatch (ms : List Match) (team1 team2 : String) : Option Match :=
  let t1 := lowerStr team1
  let t2 := lowerStr team2
  ms.find? (fun x =>
    let h := lowerStr x.homeTeam
    let a := lowerStr x.awayTeam
    (jsIncludes h t1 && jsIncludes a t2) || (jsIncludes h t2 && jsIncludes a t1))

/-- Display string for the optional match minute, as built inside the
check functions. -/
def minuteStr (m : Match) : String :=
  match m.minute with
  | some k => intStr k ++ "\x27"
  | none => ""

/-- Model of the page function checkFixture, the must-beat predicate
shape. Note that the finished branch calls teamWon with the literal name
Ajax, not with teamA, exactly as in the source. -/
def checkFixture (teamA teamB : String) (ms : List Match) : ReqResult :=
  match findMatch ms teamA teamB with
  | none => { status := "pending", score := "", time := "" }
  | some m =>
    let st := m.status
    let score := formatScore m
    let minute := minuteStr m
    if st = "FINISHED" then
      if teamWon m "Ajax" then { status := "fulfilled", score := score, time := "" }
      else { status := "failed", score := score, time := "" }
    else if st = "IN_PLAY" ∨ st = "PAUSED" then { status := "pending", score := score, time := minute }
    else { status := "pending", score := "", time := "" }

/-- Model of the page function checkNotWin, the must-not-beat predicate
shape; here the finished branch asks whether teamA won. -/
def checkNotWin (teamA teamB : String) (ms : List Match) : ReqResult :=
  match findMatch ms teamA teamB with
  | none => { status := "pending", score := "", time := "" }
  | some m =>
    let st := m.status
    let score := formatScore m
    let minute := minuteStr m
    let aWon := teamWon m teamA
    if st = "FINISHED" then
      if aWon then { status := "failed", score := score, time := "" }
      else { status := "fulfilled", score := score, time := "" }
    else if st = "IN_PLAY" ∨ st = "PAUSED" then { status := "pending", score := score, time := minute }
    else { status := "pending", score := "", time := "" }

/-! ## Upstream match payload shape and normalization

Optional fields model absent or null JSON fields; an Option Int score
component models the JS typeof number test in normalizeFdMatches. -/

structure FdTeamRef where
  name : Option String
deriving DecidableEq

structure FdScoreSide where
  home : Option Int
  away : Option Int
deriving DecidableEq

structure FdScore where
  fullTime : Option FdScoreSide
  halfTime : Option FdScoreSide
deriving DecidableEq

structure FdMatch where
  status : String
  homeTeam : Option FdTeamRef
  awayTeam : Option FdTeamRef
  score : Option FdScore
  minute : Option Int
deriving DecidableEq

structure FdPayload where
  matchesOpt : Option (List FdMatch)
deriving DecidableEq

/-- Model of the body of the map inside normalizeFdMatches: one upstream
match entry becomes one internal Match. The nested matches mirror the JS
if and else-if chains for each score side. -/
def normalizeFdMatch (m : FdMatch) : Match :=
  { status := m.status
  , homeTeam := match m.homeTeam with
      | some t => t.name.getD ""
      | none => ""
  , awayTeam := match m.awayTeam with
      | some t => t.name.getD ""
      | none => ""
  , homeScore := match m.score with
      | none => 0
      | some sc =>
        match sc.fullTime with
        | some ft =>
          match ft.home with
          | some n => n
          | none =>
            match sc.halfTime with
            | some ht => ht.home.getD 0
            | none => 0
        | none =>
          match sc.halfTime with
          | some ht => ht.home.getD 0
          | none => 0
  , awayScore := match m.score with
      | none => 0
      | some sc =>
        match sc.fullTime with
        | some ft =>
          match ft.away with
          | some n => n
          | none =>
            match sc.halfTime with
            | some ht => ht.away.getD 0
            | none => 0
        | none =>
          match sc.halfTime with
          | some ht => ht.away.getD 0
          | none => 0
  , minute := m.minute }

/-- Model of the page function normalizeFdMatches: a missing payload or a
payload whose matches field is not an array yields the empty list. -/
def normalizeFdMatches (fd : Option FdPayload) : List Match :=
  match fd with
  | none => []
  | some p =>
    match p.matchesOpt with
    | none => []
    | some ms => ms.map normalizeFdMatch

/-! ## Server model

The proxy configuration, upstream URL construction and request handling
of FDProxyHandler. Queries are modelled as the association list of key
and decoded value pairs produced by urllib parse_qs, read through
getFirstParam exactly as qs.get(key, [None])[0] reads the parsed dict. -/

def FD_API_BASE : String := "https://api.football-data.org/v4"

def COMPETITION_CODE : String := "CL"

/-- First value associated with a key in a parsed query. -/
def getFirstParam (q : List (String × String)) (k : String) : Option String :=
  match q with
  | [] => none
  | p :: ps => if p.1 = k then some p.2 else getFirstParam ps k

/-- Characters never quoted by urllib quote_plus. -/
def pyUnreserved (c : Char) : Bool :=
  c.isAlpha || c.isDigit || c == '_' || c == '.' || c == '-' || c == '~'

/-- Uppercase hexadecimal digit. -/
def hexDigit (n : Nat) : Char :=
  if n < 10 then Char.ofNat (48 + n) else Char.ofNat (55 + n)

/-- UTF-8 bytes of a character. -/
def utf8Bytes (c : Char) : List Nat :=
  let n := c.toNat
  if n < 128 then [n]
  else if n < 2048 then [192 + n / 64, 128 + n % 64]
  else if n < 65536 then [224 + n / 4096, 128 + (n / 64) % 64, 128 + n % 64]
  else [240 + n / 262144, 128 + (n / 4096) % 64, 128 + (n / 64) % 64, 128 + n % 64]

/-- Percent encoding of one byte. -/
def percentByte (n : Nat) : List Char :=
  ['%', hexDigit (n / 16), hexDigit (n % 16)]

/-- Model of urllib quote_plus on one character: unreserved characters
stand for themselves, a space becomes a plus sign, anything else is
percent encoded bytewise. -/
def quotePlusChar (c : Char) : List Char :=
  if pyUnreserved c then [c]
  else if c = ' ' then ['+']
  else (utf8Bytes c).flatMap percentByte

/-- Model of urllib quote_plus. -/
def quotePlus (s : String) : String := String.mk (s.data.flatMap quotePlusChar)

/-- Model of urllib urlencode over an ordered parameter list. -/
def renderParams : List (String × String) → String
  | [] => ""
  | [p] => p.1 ++ "=" ++ quotePlus p.2
  | p :: q :: ps => p.1 ++ "=" ++ quotePlus p.2 ++ "&" ++ renderParams (q :: ps)

/-- Parameter dictionary built by handle_matches in the non-live branch:
dateFrom first, then dateTo, each included only when present with a
truthy, that is nonempty, value. -/
def matchesParams (query : List (String × String)) : List (String × String) :=
  (match getFirstParam query "dateFrom" with
   | some s => if s = "" then [] else [("dateFrom", s)]
   | none => []) ++
  (match getFirstParam query "dateTo" with
   | some s => if s = "" then [] else [("dateTo", s)]
   | none => [])

/-- Upstream URL chosen by handle_matches: the fixed live filter URL when
the lowercased mode parameter is live, otherwise the matches endpoint
with the encoded date parameters when any are present. -/
def matchesUrl (query : List (String × String)) : String :=
  let mode := lowerStr ((getFirstParam query "mode").getD "")
  if mode = "live" then
    FD_API_BASE ++ "/competitions/" ++ COMPETITION_CODE ++ "/matches?status=IN_PLAY,PAUSED"
  else
    let params := matchesParams query
    let qp := if params.isEmpty then "" else "?" ++ renderParams params
    FD_API_BASE ++ "/competitions/" ++ COMPETITION_CODE ++ "/matches" ++ qp

/-- Outcome of one upstream call: a response, an HTTP error response
carrying the bytes read from the error stream, or a transport failure
carrying the exception message. -/
inductive UpstreamResult where
  | ok (status : Nat) (body : String)
  | httpError (status : Nat) (body : String)
  | transportError (msg : String)

/-- Response written to the client. -/
structure HttpResponse where
  status : Nat
  contentType : String
  body : String
deriving DecidableEq

/-- Result of handling one request: the response written to the client
and the URL of the upstream request, or none when no upstream request
was made. -/
structure FdOutcome where
  response : HttpResponse
  upstreamUrl : Option String

/-! ### Python string repr and the transport error body

The transport error handler builds its body with str on a dict literal
followed by replacing every single quote with a double quote. The str of
the dict applies repr to each string value. The repr model below is
faithful for strings of printable characters and the common escaped
control characters, which covers every message the theorems quantify
over and every concrete message used. -/

/-- Membership test for a character in a character list. -/
def hasChar : List Char → Char → Bool
  | [], _ => false
  | c :: cs, d => c == d || hasChar cs d

/-- Quote character picked by the Python repr of a string: a double
quote exactly when the string contains a single quote and no double
quote. -/
def pyReprQuote (s : String) : Char :=
  if hasChar s.data squoteChar && !(hasChar s.data '"') then '"' else squoteChar

/-- Lowercase hexadecimal digit. -/
def hexLower (n : Nat) : Char :=
  if n < 10 then Char.ofNat (48 + n) else Char.ofNat (87 + n)

/-- Escaping of one character inside a Python string repr whose chosen
quote character is q. -/
def pyReprEscape (q c : Char) : List Char :=
  if c = '\\' then ['\\', '\\']
  else if c = q then ['\\', q]
  else if c = '\n' then ['\\', 'n']
  else if c = '\r' then ['\\', 'r']
  else if c = '\t' then ['\\', 't']
  else if c.toNat < 32 || c.toNat = 127 then
    ['\\', 'x', hexLower (c.toNat / 16), hexLower (c.toNat % 16)]
  else [c]

/-- Characters of the Python repr of a string. -/
def pyReprStr (s : String) : List Char :=
  let q := pyReprQuote s
  q :: s.data.flatMap (pyReprEscape q) ++ [q]

/-- Characters of str applied to the dict literal built in the transport
error handler of _fd_request. -/
def pyDictStrChars (msg : String) : List Char :=
  "\x7b\x27error\x27: \x27Bad Gateway\x27, \x27detail\x27: ".data
    ++ pyReprStr msg ++ [rbraceChar]

/-- Body written for a transport failure: str of the dict with every
single quote replaced by a double quote. -/
def fdTransportBody (msg : String) : String :=
  String.mk ((pyDictStrChars msg).map (fun c => if c = squoteChar then '"' else c))

/-- Body written when the token is missing. -/
def missingTokenBody : String :=
  "\x7b\"error\":\"Server not configured: missing FD_TOKEN\"\x7d"

/-- Model of FDProxyHandler._fd_request. The token argument models the
module level FD_API_TOKEN value, none when the environment variable is
unset; the upstream argument models the result of the urllib urlopen
call for a given URL. -/
def fd_request (token : Option String) (upstream : String → UpstreamResult)
    (url : String) : FdOutcome :=
  if token.getD "" = "" then
    { response := { status := 500, contentType := "application/json", body := missingTokenBody }
    , upstreamUrl := none }
  else
    match upstream url with
    | UpstreamResult.ok st body =>
      { response := { status := st, contentType := "application/json", body := body }
      , upstreamUrl := some url }
    | UpstreamResult.httpError st body =>
      { response := { status := st, contentType := "application/json"
                    , body := if body = "" then "\x7b\x7d" else body }
      , upstreamUrl := some url }
    | UpstreamResult.transportError msg =>
      { response := { status := 502, contentType := "application/json", body := fdTransportBody msg }
      , upstreamUrl := some url }

/-- Model of FDProxyHandler.handle_standings. -/
def handle_standings (token : Option String) (upstream : String → UpstreamResult) : FdOutcome :=
  fd_request token upstream (FD_API_BASE ++ "/competitions/" ++ COMPETITION_CODE ++ "/standings")

/-- Model of FDProxyHandler.handle_matches. -/
def handle_matches (token : Option String) (upstream : String → UpstreamResult)
    (query : List (String × String)) : FdOutcome :=
  fd_request token upstream (matchesUrl query)

/-- Static SVG icon served at /favicon.svg. Only the opening tag of the
markup is reproduced; no claim depends on the asset bytes. -/
def FAVICON_SVG : String :=
  "<svg xmlns=\"http://www.w3.org/2000/svg\" width=\"64\" height=\"64\" viewBox=\"0 0 64 64\">"

/-- Static HTML page served at the root path. The page script is modelled
by the client functions above; the literal markup is not reproduced and
no claim depends on it. -/
def HTML_PAGE : String := "<!DOCTYPE html>"

/-- Model of FDProxyHandler.do_GET routing. The ico argument models the
lazily built icon bytes, whose value depends on the imaging libraries
available at runtime. -/
def serverGET (token : Option String) (ico : String) (path : String)
    (query : List (String × String)) (upstream : String → UpstreamResult) : FdOutcome :=
  if path = "/favicon.svg" then
    { response := { status := 200, contentType := "image/svg+xml; charset=utf-8", body := FAVICON_SVG }
    , upstreamUrl := none }
  else if path = "/favicon.ico" then
    { response := { status := 200, contentType := "image/x-icon", body := ico }
    , upstreamUrl := none }
  else if path = "/healthz" then
    { response := { status := 200, contentType := "text/plain; charset=utf-8", body := "ok" }
    , upstreamUrl := none }
  else if path = "/" then
    { response := { status := 200, contentType := "text/html; charset=utf-8", body := HTML_PAGE }
    , upstreamUrl := none }
  else if path = "/api/standings" then handle_standings token upstream
  else if path = "/api/matches" then handle_matches token upstream query
  else
    { response := { status := 404, contentType := "text/plain; charset=utf-8", body := "Not found" }
    , upstreamUrl := none }

/-! ## JSON validity checker

Used to state that a response body is a valid JSON document. The grammar
follows the JSON standard, with number syntax accepted slightly leniently
in that leading zeros pass; no body reasoned about below contains a
number, so that slack is inert. -/

inductive JVal where
  | jnull
  | jbool (b : Bool)
  | jnum (lexeme : String)
  | jstr (s : String)
  | jarr (elems : List JVal)
  | jobj (fields : List (String × JVal))

/-- Whitespace skipping. -/
def skipWs : List Char → List Char
  | [] => []
  | c :: cs => if c = ' ' || c = '\t' || c = '\n' || c = '\r' then skipWs cs else c :: cs

/-- Decoding of a single character JSON escape. -/
def jsonEscChar (e : Char) : Option Char :=
  if e = '"' then some '"'
  else if e = '\\' then some '\\'
  else if e = '/' then some '/'
  else if e = 'b' then some (Char.ofNat 8)
  else if e = 'f' then some (Char.ofNat 12)
  else if e = 'n' then some '\n'
  else if e = 'r' then some '\r'
  else if e = 't' then some '\t'
  else none

/-- Hexadecimal digit test. -/
def isHexDigitChar (c : Char) : Bool :=
  c.isDigit || (97 ≤ c.toNat && c.toNat ≤ 102) || (65 ≤ c.toNat && c.toNat ≤ 70)

/-- Hexadecimal digit value. -/
def hexVal (c : Char) : Nat :=
  if c.isDigit then c.toNat - 48
  else if 97 ≤ c.toNat then c.toNat - 87
  else c.toNat - 55

/-- Content of a JSON string after its opening quote: returns the decoded
characters and the input remaining after the closing quote. -/
def parseStringBody : List Char → Option (List Char × List Char)
  | [] => none
  | c :: cs =>
    if c = '"' then some ([], cs)
    else if c = '\\' then
      match cs with
      | [] => none
      | e :: cs2 =>
        if e = 'u' then
          match cs2 with
          | a :: b :: c2 :: d :: cs3 =>
            if isHexDigitChar a && isHexDigitChar b && isHexDigitChar c2 && isHexDigitChar d then
              match parseStringBody cs3 with
              | some (s, r) =>
                some (Char.ofNat (((hexVal a * 16 + hexVal b) * 16 + hexVal c2) * 16 + hexVal d) :: s, r)
              | none => none
            else none
          | _ => none
        else
          match jsonEscChar e with
          | some ec =>
            match parseStringBody cs2 with
            | some (s, r) => some (ec :: s, r)
            | none => none
          | none => none
    else if c.toNat < 32 then none
    else
      match parseStringBody cs with
      | some (s, r) => some (c :: s, r)
      | none => none

/-- Maximal run of decimal digits at the head of the input. -/
def takeDigits : List Char → List Char × List Char
  | [] => ([], [])
  | c :: cs =>
    if c.isDigit then
      let p := takeDigits cs
      (c :: p.1, p.2)
    else ([], c :: cs)

/-- Optional exponent part finishing a JSON number whose earlier lexeme
characters are given. -/
def finishExp (lex : List Char) : List Char → Option (JVal × List Char)
  | [] => some (JVal.jnum (String.mk lex), [])
  | c :: r =>
    if c = 'e' || c = 'E' then
      match r with
      | [] => none
      | c2 :: r2 =>
        let sr : List Char × List Char :=
          if c2 = '+' || c2 = '-' then ([c2], r2) else ([], c2 :: r2)
        match takeDigits sr.2 with
        | ([], _) => none
        | (es, r3) => some (JVal.jnum (String.mk (lex ++ c :: (sr.1 ++ es))), r3)
    else some (JVal.jnum (String.mk lex), c :: r)

/-- JSON number at the head of the input. -/
def parseNumberFrom (l : List Char) : Option (JVal × List Char) :=
  let sp : List Char × List Char :=
    match l with
    | c :: r => if c = '-' then ([c], r) else ([], c :: r)
    | [] => ([], [])
  match takeDigits sp.2 with
  | ([], _) => none
  | (ds, r1) =>
    match r1 with
    | c :: r2 =>
      if c = '.' then
        match takeDigits r2 with
        | ([], _) => none
        | (fs, r3) => finishExp (sp.1 ++ ds ++ c :: fs) r3
      else finishExp (sp.1 ++ ds) (c :: r2)
    | [] => some (JVal.jnum (String.mk (sp.1 ++ ds)), [])

mutual

/-- JSON value at the head of the input, with fuel bounding the nesting
recursion. -/
def parseValue : Nat → List Char → Option (JVal × List Char)
  | 0, _ => none
  | fuel + 1, l =>
    match skipWs l with
    | [] => none
    | c :: cs =>
      if c = '"' then
        match parseStringBody cs with
        | some (s, r) => some (JVal.jstr (String.mk s), r)
        | none => none
      else if c = lbraceChar then
        match skipWs cs with
        | [] => none
        | c2 :: cs2 =>
          if c2 = rbraceChar then some (JVal.jobj [], cs2)
          else parseMembers fuel (c2 :: cs2)
      else if c = '[' then
        match skipWs cs with
        | [] => none
        | c2 :: cs2 =>
          if c2 = ']' then some (JVal.jarr [], cs2)
          else parseElems fuel (c2 :: cs2)
      else if c = 't' then
        match cs with
        | 'r' :: 'u' :: 'e' :: r => some (JVal.jbool true, r)
        | _ => none
      else if c = 'f' then
        match cs with
        | 'a' :: 'l' :: 's' :: 'e' :: r => some (JVal.jbool false, r)
        | _ => none
      else if c = 'n' then
        match cs with
        | 'u' :: 'l' :: 'l' :: r => some (JVal.jnull, r)
        | _ => none
      else parseNumberFrom (c :: cs)

/-- Nonempty member list of a JSON object, starting at a key. -/
def parseMembers : Nat → List Char → Option (JVal × List Char)
  | 0, _ => none
  | fuel + 1, l =>
    match l with
    | [] => none
    | c :: cs =>
      if c = '"' then
        match parseStringBody cs with
        | some (key, r1) =>
          match skipWs r1 with
          | ':' :: r2 =>
            match parseValue fuel r2 with
            | some (v, r3) =>
              (match skipWs r3 with
               | ',' :: r4 =>
                 (match parseMembers fuel (skipWs r4) with
                  | some (JVal.jobj fs, r5) => some (JVal.jobj ((String.mk key, v) :: fs), r5)
                  | _ => none)
               | c2 :: r4 =>
                 if c2 = rbraceChar then some (JVal.jobj [(String.mk key, v)], r4) else none
               | [] => none)
            | none => none
          | _ => none
        | none => none
      else none

/-- Nonempty element list of a JSON array. -/
def parseElems : Nat → List Char → Option (JVal × List Char)
  | 0, _ => none
  | fuel + 1, l =>
    match parseValue fuel l with
    | some (v, r1) =>
      (match skipWs r1 with
       | ',' :: r2 =>
         (match parseElems fuel (skipWs r2) with
          | some (JVal.jarr es, r3) => some (JVal.jarr (v :: es), r3)
          | _ => none)
       | c2 :: r2 => if c2 = ']' then some (JVal.jarr [v], r2) else none
       | [] => none)
    | none => none

end

/-- Parse a whole string as a single JSON document. -/
def jparse (s : String) : Option JVal :=
  match parseValue (s.data.length + 1) s.data with
  | some (v, r) => if skipWs r = [] then some v else none
  | none => none

/-- Field lookup in a JSON object member list. -/
def jfield : List (String × JVal) → String → Option JVal
  | [], _ => none
  | f :: fs, k => if f.1 = k then some f.2 else jfield fs k

/-- Whether a body is a valid JSON object with an error field. -/
def hasErrorField (body : String) : Bool :=
  match jparse body with
  | some (JVal.jobj fs) => (jfield fs "error").isSome
  | _ => false

/-! ## Shared lemmas -/

/-- Result of find? under pointwise equal predicates. -/
theorem find?_congr_pred {α : Type} (p q : α → Bool) (h : ∀ a, p a = q a) :
    ∀ l : List α, l.find? p = l.find? q
  | [] => rfl
  | a :: l => by
    simp only [List.find?, h a, find?_congr_pred p q h l]

/-- String equality reduces to equality of the underlying character
lists. -/
theorem strEq_of_data {a b : String} (h : a.data = b.data) : a = b := by
  cases a
  cases b
  exact congrArg String.mk h

/-- Appending strings appends the underlying character lists. -/
theorem strData_append (a b : String) : (a ++ b).data = a.data ++ b.data := by
  cases a
  cases b
  rfl

/-- String append is associative. -/
theorem strAppend_assoc (a b c : String) : a ++ b ++ c = a ++ (b ++ c) := by
  apply strEq_of_data
  simp [strData_append, List.append_assoc]

/-! ## Claim C9: findMatch is symmetric in its team name arguments -/

/-- Claim C9: findMatch returns the same fixture regardless of the order
of the two team name arguments, because its per match disjunction is
symmetric in the two lowercased names. -/
theorem findMatch_symm (ms : List Match) (t1 t2 : String) :
    findMatch ms t1 t2 = findMatch ms t2 t1 := by
  unfold findMatch
  exact find?_congr_pred _ _ (fun x => Bool.or_comm _ _) ms

/-! ## Claim C7: no matching fixture means pending -/

/-- Claim C7: when no fixture matches the team pair, both requirement
shapes evaluate to pending with an empty score and time. -/
theorem no_fixture_pending (teamA teamB : String) (ms : List Match)
    (h : findMatch ms teamA teamB = none) :
    checkFixture teamA teamB ms = { status := "pending", score := "", time := "" } ∧
    checkNotWin teamA teamB ms = { status := "pending", score := "", time := "" } := by
  refine ⟨?_, ?_⟩ <;> simp [checkFixture, checkNotWin, h]

/-- Witness for claim C7 at a concrete requirement pair and the empty
match list. -/
theorem no_fixture_pending_witness :
    checkFixture "Copenhagen" "Barcelona" [] = { status := "pending", score := "", time := "" } ∧
    checkNotWin "Copenhagen" "Barcelona" [] = { status := "pending", score := "", time := "" } :=
  no_fixture_pending "Copenhagen" "Barcelona" [] (by decide)

/-! ## Claim C4: the must beat predicate -/

/-- Concrete finished fixture used to refute claim C4 as stated: Benfica
beats Porto, yet the must beat predicate for Benfica over Porto reports
failed, because checkFixture hard codes the team name Ajax in its
finished branch. -/
def cexMatchC4 : Match :=
  { status := "FINISHED", homeTeam := "Benfica", awayTeam := "Porto"
  , homeScore := 2, awayScore := 0, minute := none }

/-- Counterexample to claim C4 as stated: a finished fixture in which
team A scored more than team B, found by findMatch for the pair, on
which the must beat predicate for A over B evaluates to failed rather
than fulfilled. -/
theorem must_beat_claim_cex :
    cexMatchC4.status = "FINISHED" ∧
    cexMatchC4.homeTeam = "Benfica" ∧
    cexMatchC4.awayTeam = "Porto" ∧
    cexMatchC4.homeScore > cexMatchC4.awayScore ∧
    findMatch [cexMatchC4] "Benfica" "Porto" = some cexMatchC4 ∧
    (checkFixture "Benfica" "Porto" [cexMatchC4]).status = "failed" := by
  decide

/-- Amended claim C4: for every pair of teams A and B, the must beat
predicate for A over B evaluates whether Ajax won the located fixture,
because checkFixture hard codes the team name Ajax in its finished
branch. When the first fixture matching the pair is finished, the
predicate is fulfilled exactly when the side whose lowercased name
contains ajax (home side consulted first) outscored the other side, is
failed when neither side name contains ajax, and is failed in every
remaining case; in particular for A equal to Ajax it is fulfilled when A
beat B and failed when B beat A. -/
theorem must_beat_evaluates_ajax (teamA teamB : String) (ms : List Match) (m : Match)
    (hf : findMatch ms teamA teamB = some m)
    (hst : m.status = "FINISHED") :
    (jsIncludes (lowerStr m.homeTeam) (lowerStr "Ajax") = true →
       ((checkFixture teamA teamB ms).status = "fulfilled" ↔ m.homeScore > m.awayScore)) ∧
    (jsIncludes (lowerStr m.homeTeam) (lowerStr "Ajax") = false →
     jsIncludes (lowerStr m.awayTeam) (lowerStr "Ajax") = true →
       ((checkFixture teamA teamB ms).status = "fulfilled" ↔ m.awayScore > m.homeScore)) ∧
    (jsIncludes (lowerStr m.homeTeam) (lowerStr "Ajax") = false →
     jsIncludes (lowerStr m.awayTeam) (lowerStr "Ajax") = false →
       (checkFixture teamA teamB ms).status = "failed") ∧
    ((checkFixture teamA teamB ms).status = "fulfilled" ∨
     (checkFixture teamA teamB ms).status = "failed") := by
  refine ⟨?_, ?_, ?_, ?_⟩
  · intro hhome
    by_cases hw : m.homeScore > m.awayScore <;>
      simp [checkFixture, hf, hst, teamWon, hhome, hw]
  · intro hhome haway
    by_cases hw : m.awayScore > m.homeScore <;>
      simp [checkFixture, hf, hst, teamWon, hhome, haway, hw]
  · intro hhome haway
    simp [checkFixture, hf, hst, teamWon, hhome, haway]
  · by_cases h1 : jsIncludes (lowerStr m.homeTeam) (lowerStr "Ajax") = true
    · by_cases hw : m.homeScore > m.awayScore <;>
        simp [checkFixture, hf, hst, teamWon, h1, hw]
    · by_cases h2 : jsIncludes (lowerStr m.awayTeam) (lowerStr "Ajax") = true
      · by_cases hw : m.awayScore > m.homeScore <;>
          simp [checkFixture, hf, hst, teamWon, h1, h2, hw]
      · simp [checkFixture, hf, hst, teamWon, h1, h2]

/-- Witness for the amended claim C4 at a concrete pair with A distinct
from Ajax: the finished Benfica versus Porto fixture, neither of whose
side names contains ajax, on which the third conjunct yields failed. -/
theorem must_beat_evaluates_ajax_witness :
    (jsIncludes (lowerStr cexMatchC4.homeTeam) (lowerStr "Ajax") = true →
       ((checkFixture "Benfica" "Porto" [cexMatchC4]).status = "fulfilled" ↔
          cexMatchC4.homeScore > cexMatchC4.awayScore)) ∧
    (jsIncludes (lowerStr cexMatchC4.homeTeam) (lowerStr "Ajax") = false →
     jsIncludes (lowerStr cexMatchC4.awayTeam) (lowerStr "Ajax") = true →
       ((checkFixture "Benfica" "Porto" [cexMatchC4]).status = "fulfilled" ↔
          cexMatchC4.awayScore > cexMatchC4.homeScore)) ∧
    (jsIncludes (lowerStr cexMatchC4.homeTeam) (lowerStr "Ajax") = false →
     jsIncludes (lowerStr cexMatchC4.awayTeam) (lowerStr "Ajax") = false →
       (checkFixture "Benfica" "Porto" [cexMatchC4]).status = "failed") ∧
    (((checkFixture "Benfica" "Porto" [cexMatchC4]).status = "fulfilled") ∨
     ((checkFixture "Benfica" "Porto" [cexMatchC4]).status = "failed")) :=
  must_beat_evaluates_ajax "Benfica" "Porto" [cexMatchC4] cexMatchC4 (by decide) (by decide)

/-! ## Claim C8: normalization of a concrete full time score -/

/-- Claim C8: a payload entry whose full time score is home 2 away 1
normalizes to an internal match with homeScore 2 and awayScore 1,
whatever its other fields hold. -/
theorem normalize_fulltime_2_1 (m : FdMatch) (sc : FdScore)
    (hsc : m.score = some sc)
    (hft : sc.fullTime = some { home := some 2, away := some 1 }) :
    (normalizeFdMatch m).homeScore = 2 ∧
    (normalizeFdMatch m).awayScore = 1 ∧
    normalizeFdMatches (some { matchesOpt := some [m] }) = [normalizeFdMatch m] := by
  refine ⟨?_, ?_, rfl⟩ <;> simp [normalizeFdMatch, hsc, hft]

/-- Concrete payload entry for the claim C8 witness. -/
def wFdMatchC8 : FdMatch :=
  { status := "FINISHED", homeTeam := some { name := some "A" }
  , awayTeam := some { name := some "B" }
  , score := some { fullTime := some { home := some 2, away := some 1 }, halfTime := none }
  , minute := none }

/-- Witness for claim C8 at a fully concrete payload entry. -/
theorem normalize_fulltime_2_1_witness :
    (normalizeFdMatch wFdMatchC8).homeScore = 2 ∧
    (normalizeFdMatch wFdMatchC8).awayScore = 1 ∧
    normalizeFdMatches (some { matchesOpt := some [wFdMatchC8] })
      = [normalizeFdMatch wFdMatchC8] :=
  normalize_fulltime_2_1 wFdMatchC8
    { fullTime := some { home := some 2, away := some 1 }, halfTime := none } rfl rfl

/-! ## Claim C10: per side score resolution -/

/-- Claim C10: each normalized score side takes the full time value when
it is a number, falls back to the half time value when that is a number,
and defaults to zero; the two sides are resolved independently, each from
its own components only. -/
theorem normalize_score_resolution (m : FdMatch) :
    (normalizeFdMatch m).homeScore =
      (match m.score with
       | none => 0
       | some sc =>
         match sc.fullTime.bind FdScoreSide.home with
         | some n => n
         | none =>
           match sc.halfTime.bind FdScoreSide.home with
           | some n => n
           | none => 0) ∧
    (normalizeFdMatch m).awayScore =
      (match m.score with
       | none => 0
       | some sc =>
         match sc.fullTime.bind FdScoreSide.away with
         | some n => n
         | none =>
           match sc.halfTime.bind FdScoreSide.away with
           | some n => n
           | none => 0) := by
  obtain ⟨st, hT, aT, sc, mi⟩ := m
  cases sc with
  | none => exact ⟨rfl, rfl⟩
  | some s =>
    obtain ⟨ft, hf⟩ := s
    cases ft with
    | none =>
      cases hf with
      | none => exact ⟨rfl, rfl⟩
      | some hs =>
        obtain ⟨hh, ha⟩ := hs
        cases hh <;> cases ha <;> exact ⟨rfl, rfl⟩
    | some fs =>
      obtain ⟨fh, fa⟩ := fs
      cases hf with
      | none => cases fh <;> cases fa <;> exact ⟨rfl, rfl⟩
      | some hs =>
        obtain ⟨hh, ha⟩ := hs
        cases fh <;> cases fa <;> cases hh <;> cases ha <;> exact ⟨rfl, rfl⟩

/-! ## Claim C3: missing token refuses proxy requests -/

/-- Claim C3: with the token unset, both proxy endpoints answer status
500 with a JSON body holding an error field, and no upstream request is
made, for every query and every upstream behavior. -/
theorem proxy_missing_token (ico : String) (q : List (String × String))
    (u : String → UpstreamResult) :
    ((serverGET none ico "/api/standings" q u).response.status = 500 ∧
     hasErrorField (serverGET none ico "/api/standings" q u).response.body = true ∧
     (serverGET none ico "/api/standings" q u).upstreamUrl = none) ∧
    ((serverGET none ico "/api/matches" q u).response.status = 500 ∧
     hasErrorField (serverGET none ico "/api/matches" q u).response.body = true ∧
     (serverGET none ico "/api/matches" q u).upstreamUrl = none) := by
  have h : hasErrorField missingTokenBody = true := by decide
  refine ⟨⟨?_, ?_, ?_⟩, ⟨?_, ?_, ?_⟩⟩ <;>
    simp [serverGET, handle_standings, handle_matches, fd_request, h]

/-! ## Claim C6: upstream responses are relayed -/

/-- Claim C6: when the upstream answers, the proxy relays exactly the
upstream status code and body; for an HTTP error whose readable body is
empty, an empty JSON object body is substituted. -/
theorem upstream_relay (t : String) (ht : t ≠ "") (u : String → UpstreamResult) (url : String) :
    (∀ st body, u url = UpstreamResult.ok st body →
       (fd_request (some t) u url).response =
         { status := st, contentType := "application/json", body := body }) ∧
    (∀ st body, u url = UpstreamResult.httpError st body → body ≠ "" →
       (fd_request (some t) u url).response =
         { status := st, contentType := "application/json", body := body }) ∧
    (∀ st, u url = UpstreamResult.httpError st "" →
       (fd_request (some t) u url).response =
         { status := st, contentType := "application/json", body := "\x7b\x7d" }) := by
  refine ⟨?_, ?_, ?_⟩
  · intro st body hu
    simp [fd_request, ht, hu]
  · intro st body hu hb
    simp [fd_request, ht, hu, hb]
  · intro st hu
    simp [fd_request, ht, hu]

/-- Witness for claim C6 at concrete upstream behaviors. -/
theorem upstream_relay_witness :
    (∀ st body, (fun _ : String => UpstreamResult.httpError 404 "") "x"
         = UpstreamResult.ok st body →
       (fd_request (some "tok") (fun _ => UpstreamResult.httpError 404 "") "x").response =
         { status := st, contentType := "application/json", body := body }) ∧
    (∀ st body, (fun _ : String => UpstreamResult.httpError 404 "") "x"
         = UpstreamResult.httpError st body → body ≠ "" →
       (fd_request (some "tok") (fun _ => UpstreamResult.httpError 404 "") "x").response =
         { status := st, contentType := "application/json", body := body }) ∧
    (∀ st, (fun _ : String => UpstreamResult.httpError 404 "") "x"
         = UpstreamResult.httpError st "" →
       (fd_request (some "tok") (fun _ => UpstreamResult.httpError 404 "") "x").response =
         { status := st, contentType := "application/json", body := "\x7b\x7d" }) :=
  upstream_relay "tok" (by decide) (fun _ => UpstreamResult.httpError 404 "") "x"

/-! ## Claim C1: live mode upstream URL -/

/-- Claim C1: whenever the query carries mode=live, handle_matches
forwards to the fixed competition matches URL whose only filter is
status=IN_PLAY,PAUSED; the URL is the same for every query, so date
parameters are never forwarded in live mode. The token must be set for
any upstream request to be made. -/
theorem api_matches_live_upstream (t : String) (ht : t ≠ "")
    (u : String → UpstreamResult) (q : List (String × String))
    (hm : getFirstParam q "mode" = some "live") :
    (handle_matches (some t) u q).upstreamUrl
      = some "https://api.football-data.org/v4/competitions/CL/matches?status=IN_PLAY,PAUSED" := by
  have hlow : lowerStr "live" = "live" := by decide
  have hurl : matchesUrl q
      = "https://api.football-data.org/v4/competitions/CL/matches?status=IN_PLAY,PAUSED" := by
    simp [matchesUrl, hm, hlow]
    decide
  simp only [handle_matches, fd_request]
  rw [if_neg (by simpa using ht)]
  cases hc : u (matchesUrl q) <;> simp [hurl]

/-- Witness for claim C1: a query carrying both mode=live and a date
parameter still maps to the fixed live URL. -/
theorem api_matches_live_upstream_witness :
    (handle_matches (some "tok") (fun _ => UpstreamResult.ok 200 "")
        [("mode", "live"), ("dateFrom", "2025-01-01")]).upstreamUrl
      = some "https://api.football-data.org/v4/competitions/CL/matches?status=IN_PLAY,PAUSED" :=
  api_matches_live_upstream "tok" (by decide) (fun _ => UpstreamResult.ok 200 "")
    [("mode", "live"), ("dateFrom", "2025-01-01")] (by decide)

/-! ## Claim C2: date parameter forwarding -/

/-- Strings in the date format sent by the page: nonempty runs of digits
and dashes, on which quote_plus is the identity. -/
def dateChars (s : String) : Prop :=
  s ≠ "" ∧ ∀ c ∈ s.data, c.isDigit = true ∨ c = '-'

/-- quote_plus leaves one digit or dash character unchanged. -/
theorem quotePlusChar_datechar (c : Char) (h : c.isDigit = true ∨ c = '-') :
    quotePlusChar c = [c] := by
  have hr : pyUnreserved c = true := by
    rcases h with h | h
    · simp [pyUnreserved, h]
    · subst h
      decide
  simp [quotePlusChar, hr]

/-- quote_plus is the identity on lists of digits and dashes. -/
theorem flatMap_quotePlus_datechars : ∀ l : List Char,
    (∀ c ∈ l, c.isDigit = true ∨ c = '-') → l.flatMap quotePlusChar = l
  | [], _ => rfl
  | c :: cs, h => by
    have hc := quotePlusChar_datechar c (h c (by simp))
    have ih := flatMap_quotePlus_datechars cs (fun d hd => h d (by simp [hd]))
    simp [List.flatMap_cons, hc, ih]

/-- quote_plus is the identity on date strings. -/
theorem quotePlus_datechars (s : String) (h : ∀ c ∈ s.data, c.isDigit = true ∨ c = '-') :
    quotePlus s = s := by
  obtain ⟨l⟩ := s
  exact congrArg String.mk (flatMap_quotePlus_datechars l h)

/-- Claim C2: outside live mode, each date parameter present in the
request with a nonempty value appears in the upstream parameter list with
exactly the request value, each absent date parameter is absent from the
upstream parameter list, the upstream URL is the matches endpoint
carrying exactly the encoded parameter list, and for date formatted
values the URL carries the values verbatim. -/
theorem api_matches_date_params (q : List (String × String))
    (hmode : lowerStr ((getFirstParam q "mode").getD "") ≠ "live") :
    (∀ s, getFirstParam q "dateFrom" = some s → s ≠ "" →
       getFirstParam (matchesParams q) "dateFrom" = some s) ∧
    (getFirstParam q "dateFrom" = none →
       getFirstParam (matchesParams q) "dateFrom" = none) ∧
    (∀ s, getFirstParam q "dateTo" = some s → s ≠ "" →
       getFirstParam (matchesParams q) "dateTo" = some s) ∧
    (getFirstParam q "dateTo" = none →
       getFirstParam (matchesParams q) "dateTo" = none) ∧
    matchesUrl q = FD_API_BASE ++ "/competitions/" ++ COMPETITION_CODE ++ "/matches" ++
      (if (matchesParams q).isEmpty then "" else "?" ++ renderParams (matchesParams q)) ∧
    (∀ s1 s2, getFirstParam q "dateFrom" = some s1 → getFirstParam q "dateTo" = some s2 →
       dateChars s1 → dateChars s2 →
       matchesUrl q = FD_API_BASE ++ "/competitions/" ++ COMPETITION_CODE ++ "/matches" ++
         ("?" ++ ("dateFrom" ++ "=" ++ s1 ++ "&" ++ ("dateTo" ++ "=" ++ s2)))) := by
  refine ⟨?_, ?_, ?_, ?_, ?_, ?_⟩
  · intro s hs hne
    cases hdt : getFirstParam q "dateTo" with
    | none => simp [matchesParams, hs, hdt, hne, getFirstParam]
    | some s2 =>
      by_cases h2 : s2 = "" <;>
        simp [matchesParams, hs, hdt, hne, h2, getFirstParam]
  · intro h0
    cases hdt : getFirstParam q "dateTo" with
    | none => simp [matchesParams, h0, hdt, getFirstParam]
    | some s2 =>
      by_cases h2 : s2 = "" <;>
        simp [matchesParams, h0, hdt, h2, getFirstParam]
  · intro s hs hne
    cases hdf : getFirstParam q "dateFrom" with
    | none => simp [matchesParams, hs, hdf, hne, getFirstParam]
    | some s1 =>
      by_cases h1 : s1 = "" <;>
        simp [matchesParams, hs, hdf, hne, h1, getFirstParam]
  · intro h0
    cases hdf : getFirstParam q "dateFrom" with
    | none => simp [matchesParams, h0, hdf, getFirstParam]
    | some s1 =>
      by_cases h1 : s1 = "" <;>
        simp [matchesParams, h0, hdf, h1, getFirstParam]
  · simp only [matchesUrl]
    rw [if_neg hmode]
  · intro s1 s2 h1 h2 hd1 hd2
    have hp : matchesParams q = [("dateFrom", s1), ("dateTo", s2)] := by
      simp [matchesParams, h1, h2, hd1.1, hd2.1]
    simp only [matchesUrl]
    rw [if_neg hmode, hp]
    simp [renderParams, quotePlus_datechars s1 hd1.2, quotePlus_datechars s2 hd2.2]

/-- Witness for claim C2 at a concrete query holding both dates. -/
theorem api_matches_date_params_witness :
    (∀ s, getFirstParam [("dateFrom", "2025-01-01"), ("dateTo", "2025-01-02")] "dateFrom" = some s → s ≠ "" →
       getFirstParam (matchesParams [("dateFrom", "2025-01-01"), ("dateTo", "2025-01-02")]) "dateFrom" = some s) ∧
    (getFirstParam [("dateFrom", "2025-01-01"), ("dateTo", "2025-01-02")] "dateFrom" = none →
       getFirstParam (matchesParams [("dateFrom", "2025-01-01"), ("dateTo", "2025-01-02")]) "dateFrom" = none) ∧
    (∀ s, getFirstParam [("dateFrom", "2025-01-01"), ("dateTo", "2025-01-02")] "dateTo" = some s → s ≠ "" →
       getFirstParam (matchesParams [("dateFrom", "2025-01-01"), ("dateTo", "2025-01-02")]) "dateTo" = some s) ∧
    (getFirstParam [("dateFrom", "2025-01-01"), ("dateTo", "2025-01-02")] "dateTo" = none →
       getFirstParam (matchesParams [("dateFrom", "2025-01-01"), ("dateTo", "2025-01-02")]) "dateTo" = none) ∧
    matchesUrl [("dateFrom", "2025-01-01"), ("dateTo", "2025-01-02")]
      = FD_API_BASE ++ "/competitions/" ++ COMPETITION_CODE ++ "/matches" ++
        (if (matchesParams [("dateFrom", "2025-01-01"), ("dateTo", "2025-01-02")]).isEmpty then ""
         else "?" ++ renderParams (matchesParams [("dateFrom", "2025-01-01"), ("dateTo", "2025-01-02")])) ∧
    (∀ s1 s2, getFirstParam [("dateFrom", "2025-01-01"), ("dateTo", "2025-01-02")] "dateFrom" = some s1 →
       getFirstParam [("dateFrom", "2025-01-01"), ("dateTo", "2025-01-02")] "dateTo" = some s2 →
       dateChars s1 → dateChars s2 →
       matchesUrl [("dateFrom", "2025-01-01"), ("dateTo", "2025-01-02")]
         = FD_API_BASE ++ "/competitions/" ++ COMPETITION_CODE ++ "/matches" ++
           ("?" ++ ("dateFrom" ++ "=" ++ s1 ++ "&" ++ ("dateTo" ++ "=" ++ s2)))) :=
  api_matches_date_params [("dateFrom", "2025-01-01"), ("dateTo", "2025-01-02")] (by decide)

/-! ## Claim C5: transport failure bodies -/

/-- Messages made of printable ASCII characters other than the two quote
characters and the backslash; the Python repr model is exact on them and
they survive the quote substitution unharmed. -/
def safeMsgChar (c : Char) : Prop :=
  32 ≤ c.toNat ∧ c.toNat < 127 ∧ c ≠ squoteChar ∧ c ≠ '"' ∧ c ≠ '\\'

instance (c : Char) : Decidable (safeMsgChar c) := by
  unfold safeMsgChar
  infer_instance

/-- Characters of the transport body up to and including the opening
quote of the detail value. -/
def tbHead : List Char :=
  [lbraceChar, '"', 'e', 'r', 'r', 'o', 'r', '"', ':', ' ', '"', 'B', 'a', 'd', ' ',
   'G', 'a', 't', 'e', 'w', 'a', 'y', '"', ',', ' ', '"', 'd', 'e', 't', 'a', 'i', 'l',
   '"', ':', ' ', '"']

/-- hasChar is false when no element equals the sought character. -/
theorem hasChar_eq_false : ∀ (l : List Char) (d : Char), (∀ c ∈ l, c ≠ d) →
    hasChar l d = false
  | [], _, _ => rfl
  | c :: cs, d, h => by
    simp only [hasChar]
    rw [hasChar_eq_false cs d (fun e he => h e (by simp [he]))]
    simp [h c (by simp)]

/-- repr of a message without single quotes picks the single quote as its
quote character. -/
theorem pyReprQuote_safe (s : String) (h : ∀ c ∈ s.data, c ≠ squoteChar) :
    pyReprQuote s = squoteChar := by
  unfold pyReprQuote
  rw [hasChar_eq_false s.data squoteChar h]
  simp

/-- repr escaping is the identity on safe characters. -/
theorem pyReprEscape_safe (c : Char) (h : safeMsgChar c) :
    pyReprEscape squoteChar c = [c] := by
  obtain ⟨h1, h2, h3, h4, h5⟩ := h
  have hn : c ≠ '\n' := by
    intro e
    subst e
    exact absurd h1 (by decide)
  have hr : c ≠ '\r' := by
    intro e
    subst e
    exact absurd h1 (by decide)
  have htab : c ≠ '\t' := by
    intro e
    subst e
    exact absurd h1 (by decide)
  have hlt : ¬ c.toNat < 32 := by omega
  have h127 : c.toNat ≠ 127 := by omega
  simp [pyReprEscape, h5, h3, hn, hr, htab, hlt, h127]

/-- repr escaping over a whole safe message is the identity. -/
theorem flatMap_pyReprEscape_safe : ∀ l : List Char, (∀ c ∈ l, safeMsgChar c) →
    l.flatMap (pyReprEscape squoteChar) = l
  | [], _ => rfl
  | c :: cs, h => by
    simp [pyReprEscape_safe c (h c (by simp)),
      flatMap_pyReprEscape_safe cs (fun d hd => h d (by simp [hd]))]

/-- Quote substitution is the identity on lists without single quotes. -/
theorem mapReplaceQuote_id : ∀ l : List Char, (∀ c ∈ l, c ≠ squoteChar) →
    l.map (fun c => if c = squoteChar then '"' else c) = l
  | [], _ => rfl
  | c :: cs, h => by
    simp only [List.map_cons]
    rw [if_neg (h c (by simp)), mapReplaceQuote_id cs (fun d hd => h d (by simp [hd]))]

/-- Shape of the transport body for a safe message: the fixed head, the
message itself, a closing quote and the closing brace. -/
theorem fdTransportBody_safe_data (msg : String) (h : ∀ c ∈ msg.data, safeMsgChar c) :
    (fdTransportBody msg).data = tbHead ++ (msg.data ++ ['"', rbraceChar]) := by
  have hq : pyReprQuote msg = squoteChar :=
    pyReprQuote_safe msg (fun c hc => (h c hc).2.2.1)
  have hesc : msg.data.flatMap (pyReprEscape squoteChar) = msg.data :=
    flatMap_pyReprEscape_safe msg.data h
  have hrq : msg.data.map (fun c => if c = squoteChar then '"' else c) = msg.data :=
    mapReplaceQuote_id msg.data (fun c hc => (h c hc).2.2.1)
  have f1 : (if squoteChar = squoteChar then '"' else squoteChar) = '"' := by decide
  have f2 : (if rbraceChar = squoteChar then '"' else rbraceChar) = rbraceChar := by decide
  have f0 : "\x7b\x27error\x27: \x27Bad Gateway\x27, \x27detail\x27: ".data.map
      (fun c => if c = squoteChar then '"' else c)
      = [lbraceChar, '"', 'e', 'r', 'r', 'o', 'r', '"', ':', ' ', '"', 'B', 'a', 'd', ' ',
         'G', 'a', 't', 'e', 'w', 'a', 'y', '"', ',', ' ', '"', 'd', 'e', 't', 'a', 'i', 'l',
         '"', ':', ' '] := by decide
  show ((pyDictStrChars msg).map (fun c => if c = squoteChar then '"' else c))
      = tbHead ++ (msg.data ++ ['"', rbraceChar])
  simp only [pyDictStrChars, pyReprStr, hq, hesc, List.map_append, List.map_cons,
    List.map_nil, hrq, f1, f2, f0, tbHead, List.append_assoc, List.cons_append,
    List.nil_append, List.singleton_append]
  simp +decide [List.append_assoc]

/-- The string content lemma: a run of safe characters followed by a
closing quote parses to exactly that run. -/
theorem parseStringBody_safe : ∀ (content rest : List Char),
    (∀ c ∈ content, c ≠ '"' ∧ c ≠ '\\' ∧ 32 ≤ c.toNat) →
    parseStringBody (content ++ '"' :: rest) = some (content, rest)
  | [], rest, _ => by
    rw [List.nil_append, parseStringBody.eq_def]
    dsimp only
    rw [if_pos rfl]
  | c :: cs, rest, h => by
    have hc := h c (by simp)
    have ih := parseStringBody_safe cs rest (fun d hd => h d (by simp [hd]))
    rw [List.cons_append, parseStringBody.eq_def]
    dsimp only
    rw [if_neg hc.1, if_neg hc.2.1, if_neg (by have := hc.2.2; omega), ih]

/-- Parsing the transport body of a safe message yields the object with
the error and detail fields, consuming the whole input, for every
sufficient fuel of the given shape. -/
theorem parseValue_transport (msg : List Char)
    (h : ∀ c ∈ msg, c ≠ '"' ∧ c ≠ '\\' ∧ 32 ≤ c.toNat) (f : Nat) :
    parseValue (f + 1 + 1 + 1 + 1) (tbHead ++ (msg ++ ['"', rbraceChar]))
      = some (JVal.jobj [("error", JVal.jstr "Bad Gateway"),
                         ("detail", JVal.jstr (String.mk msg))], []) := by
  have hstr := parseStringBody_safe msg [rbraceChar] h
  have hk1 : ∀ X : List Char,
      parseStringBody ('e' :: 'r' :: 'r' :: 'o' :: 'r' :: '"' :: X)
        = some (['e', 'r', 'r', 'o', 'r'], X) := fun X => by
    simpa using parseStringBody_safe ['e', 'r', 'r', 'o', 'r'] X (by decide)
  have hk2 : ∀ X : List Char,
      parseStringBody
          ('B' :: 'a' :: 'd' :: ' ' :: 'G' :: 'a' :: 't' :: 'e' :: 'w' :: 'a' :: 'y' :: '"' :: X)
        = some (['B', 'a', 'd', ' ', 'G', 'a', 't', 'e', 'w', 'a', 'y'], X) := fun X => by
    simpa using parseStringBody_safe ['B', 'a', 'd', ' ', 'G', 'a', 't', 'e', 'w', 'a', 'y'] X (by decide)
  have hk3 : ∀ X : List Char,
      parseStringBody ('d' :: 'e' :: 't' :: 'a' :: 'i' :: 'l' :: '"' :: X)
        = some (['d', 'e', 't', 'a', 'i', 'l'], X) := fun X => by
    simpa using parseStringBody_safe ['d', 'e', 't', 'a', 'i', 'l'] X (by decide)
  have hs1 : String.mk ['e', 'r', 'r', 'o', 'r'] = "error" := rfl
  have hs2 : String.mk ['B', 'a', 'd', ' ', 'G', 'a', 't', 'e', 'w', 'a', 'y'] = "Bad Gateway" := rfl
  have hs3 : String.mk ['d', 'e', 't', 'a', 'i', 'l'] = "detail" := rfl
  simp only [tbHead, List.cons_append, List.nil_append]
  simp +decide [parseValue, parseMembers, skipWs, hk1, hk2, hk3, hstr, hs1, hs2, hs3]

/-- The underlying character list determines the string. -/
theorem strMk_data (s : String) : String.mk s.data = s := by
  cases s
  rfl

/-- Amended claim C5: on a transport failure the proxy answers 502, and
for every exception message of printable ASCII characters containing no
single quote, double quote or backslash, the body parses as a JSON object
whose error field is the string Bad Gateway and whose detail field is the
message itself. The quote and backslash exclusions are forced by the
counterexample below: the ad hoc quote substitution garbles messages
containing quote characters. -/
theorem transport_error_body (t : String) (ht : t ≠ "") (u : String → UpstreamResult)
    (url msg : String) (hu : u url = UpstreamResult.transportError msg)
    (hsafe : ∀ c ∈ msg.data, safeMsgChar c) :
    (fd_request (some t) u url).response.status = 502 ∧
    jparse (fd_request (some t) u url).response.body
      = some (JVal.jobj [("error", JVal.jstr "Bad Gateway"),
                         ("detail", JVal.jstr msg)]) := by
  have hresp : (fd_request (some t) u url).response =
      { status := 502, contentType := "application/json", body := fdTransportBody msg } := by
    simp [fd_request, ht, hu]
  have hmsg3 : ∀ c ∈ msg.data, c ≠ '"' ∧ c ≠ '\\' ∧ 32 ≤ c.toNat := fun c hc =>
    ⟨(hsafe c hc).2.2.2.1, (hsafe c hc).2.2.2.2, (hsafe c hc).1⟩
  have hdata := fdTransportBody_safe_data msg hsafe
  have hlen : (fdTransportBody msg).data.length + 1
      = msg.data.length + 35 + 1 + 1 + 1 + 1 := by
    rw [hdata]
    simp only [tbHead, List.length_append, List.length_cons, List.length_nil]
    omega
  refine ⟨by rw [hresp], ?_⟩
  rw [hresp]
  show jparse (fdTransportBody msg) = _
  unfold jparse
  rw [hlen, hdata, parseValue_transport msg.data hmsg3 (msg.data.length + 35)]
  simp [skipWs, strMk_data]

/-- Witness for the amended claim C5 at a concrete safe message. -/
theorem transport_error_body_witness :
    (fd_request (some "tok") (fun _ => UpstreamResult.transportError "timed out") "u").response.status = 502 ∧
    jparse (fd_request (some "tok") (fun _ => UpstreamResult.transportError "timed out") "u").response.body
      = some (JVal.jobj [("error", JVal.jstr "Bad Gateway"),
                         ("detail", JVal.jstr "timed out")]) :=
  transport_error_body "tok" (by decide) (fun _ => UpstreamResult.transportError "timed out")
    "u" "timed out" rfl (by decide)

/-- Counterexample to claim C5 as stated: for the exception message a"b,
which contains a double quote, the 502 body produced by the quote
substitution is not valid JSON at all, so it is not a JSON object with an
error field and a detail string. -/
theorem transport_error_body_cex :
    (fd_request (some "tok") (fun _ => UpstreamResult.transportError "a\"b") "u").response.status = 502 ∧
    (jparse (fd_request (some "tok") (fun _ => UpstreamResult.transportError "a\"b") "u").response.body).isNone = true ∧
    hasErrorField (fd_request (some "tok") (fun _ => UpstreamResult.transportError "a\"b") "u").response.body = false := by
  decide
